import Mathlib

/-
Verification development for the med-verify-scan backend
(Trust & Verification Engine: canonical encoder, signer/verifier,
identity lifecycle routes, revocation registry, scan pipeline).

Shallow embedding conventions:
* Python dicts with string keys become association lists
  `List (String × JValue)`; a dict never holds a duplicate key, so
  theorems about dict behaviour carry a `Nodup` hypothesis on the keys.
* Dates are day ordinals (`Int`); `datetime.now().date()` becomes an
  explicit `now : Int` parameter.
* The `cryptography` library's ECDSA-P256 primitives and base64 are not
  repository code; they are abstracted as an `EcdsaLib` structure whose
  proof fields state exactly the library guarantees the code relies on
  (signature correctness for a matching keypair, base64 round-trip).
* Database tables become lists inside `DbState`; SQL `INSERT` is list
  append, `UPDATE ... WHERE id` is a keyed map.
-/

/-- JSON scalar values carried in QR payload dictionaries
(`src/backend/services/qr_signer.py` works on JSON-compatible dicts). -/
inductive JValue where
  | str (s : String)
  | num (n : Int)
  | bool (b : Bool)
  | null
deriving DecidableEq

/-- Python truthiness of a JSON scalar, used by the routes'
`if not value:` guards. -/
def JValue.truthy : JValue → Bool
  | .str s => !(s == "")
  | .num n => !(n == 0)
  | .bool b => b
  | .null => false

/-- Lower-case hex digit, as emitted by Python's `json` escaping. -/
def hexDigit (n : Nat) : Char :=
  if n < 10 then Char.ofNat (48 + n) else Char.ofNat (87 + n)

/-- Escape one character the way `json.dumps(..., ensure_ascii=False)`
does: backslash, double quote, the short control escapes, `\u00XX` for
the remaining control characters, everything else verbatim. -/
def escapeChar (c : Char) : String :=
  if c = '\\' then "\\\\"
  else if c = '"' then "\\\""
  else if c = '\n' then "\\n"
  else if c = '\t' then "\\t"
  else if c = '\r' then "\\r"
  else if c = (Char.ofNat 8) then "\\b"
  else if c = (Char.ofNat 12) then "\\f"
  else if c.toNat < 32 then
    "\\u00" ++ String.singleton (hexDigit (c.toNat / 16))
            ++ String.singleton (hexDigit (c.toNat % 16))
  else String.singleton c

/-- Escape a whole string for JSON emission. -/
def escapeString (s : String) : String :=
  String.join (s.data.map escapeChar)

/-- A JSON string literal: quotes around the escaped text. -/
def jsonString (s : String) : String :=
  "\"" ++ escapeString s ++ "\""

/-- Compact JSON encoding of one scalar value (`json.dumps` with
`separators=(',', ':')`). -/
def encodeJValue : JValue → String
  | .str s => jsonString s
  | .num n => toString n
  | .bool b => if b then "true" else "false"
  | .null => "null"

/-- One `"key":value` member of the emitted JSON object. -/
def encodeMember (kv : String × JValue) : String :=
  jsonString kv.1 ++ ":" ++ encodeJValue kv.2

/-- Lexicographic comparison of character lists by code point, the
order Python uses to compare `str` values. -/
def charsLe : List Char → List Char → Bool
  | [], _ => true
  | _ :: _, [] => false
  | c :: cs, d :: ds =>
    if c.toNat < d.toNat then true
    else if d.toNat < c.toNat then false
    else charsLe cs ds

theorem charsLe_refl : ∀ a : List Char, charsLe a a = true := by
  intro a
  induction a with
  | nil => rfl
  | cons c cs ih => simp [charsLe, Nat.lt_irrefl, ih]

theorem charsLe_total : ∀ a b : List Char, charsLe a b = true ∨ charsLe b a = true := by
  intro a
  induction a with
  | nil => intro b; left; rfl
  | cons c cs ih =>
    intro b
    cases b with
    | nil => right; rfl
    | cons d ds =>
      simp only [charsLe]
      rcases Nat.lt_trichotomy c.toNat d.toNat with h | h | h
      · left; simp [h]
      · rcases ih ds with h' | h' <;> simp [h, Nat.lt_irrefl, h']
      · right; simp [h, Nat.lt_asymm h]

theorem charsLe_trans : ∀ a b c : List Char,
    charsLe a b = true → charsLe b c = true → charsLe a c = true := by
  intro a
  induction a with
  | nil => intro b c _ _; rfl
  | cons x xs ih =>
    intro b c hab hbc
    cases b with
    | nil => simp [charsLe] at hab
    | cons y ys =>
      cases c with
      | nil => simp [charsLe] at hbc
      | cons z zs =>
        simp only [charsLe] at hab hbc ⊢
        by_cases h₁ : x.toNat < y.toNat
        · by_cases h₂ : y.toNat < z.toNat
          · simp [Nat.lt_trans h₁ h₂]
          · by_cases h₃ : z.toNat < y.toNat
            · simp [h₂, h₃] at hbc
            · have hyz : y.toNat = z.toNat := by omega
              simp [show x.toNat < z.toNat by omega]
        · by_cases h₄ : y.toNat < x.toNat
          · simp [h₁, h₄] at hab
          · have hxy : x.toNat = y.toNat := by omega
            simp [h₁, h₄] at hab
            by_cases h₂ : y.toNat < z.toNat
            · simp [show x.toNat < z.toNat by omega]
            · by_cases h₃ : z.toNat < y.toNat
              · simp [h₂, h₃] at hbc
              · simp [h₂, h₃] at hbc
                simp [show ¬ x.toNat < z.toNat by omega, show ¬ z.toNat < x.toNat by omega]
                exact ih ys zs hab hbc

theorem charsLe_antisymm : ∀ a b : List Char,
    charsLe a b = true → charsLe b a = true → a = b := by
  intro a
  induction a with
  | nil =>
    intro b _ hba
    cases b with
    | nil => rfl
    | cons d ds => simp [charsLe] at hba
  | cons c cs ih =>
    intro b hab hba
    cases b with
    | nil => simp [charsLe] at hab
    | cons d ds =>
      simp only [charsLe] at hab hba
      rcases Nat.lt_trichotomy c.toNat d.toNat with h | h | h
      · simp [h, Nat.lt_asymm h] at hba
      · have hc : c = d := Char.ext_iff.mpr (UInt32.ext_iff.mpr h)
        subst hc
        simp [Nat.lt_irrefl] at hab hba
        rw [ih ds hab hba]
      · simp [h, Nat.lt_asymm h] at hab

/-- The comparison `sorted(...)` applies to Python strings, on the
embedded `String` type. -/
def strLe (a b : String) : Bool := charsLe a.data b.data

theorem strLe_antisymm {a b : String} (h₁ : strLe a b = true) (h₂ : strLe b a = true) :
    a = b := by
  cases a; cases b
  exact congrArg String.mk (charsLe_antisymm _ _ h₁ h₂)

/-- Key order used by `sort_keys=True`: compare the raw (unescaped)
keys lexicographically by code point. -/
def keyLE (a b : String × JValue) : Prop := strLe a.1 b.1 = true

instance : DecidableRel keyLE :=
  fun a b => inferInstanceAs (Decidable (strLe a.1 b.1 = true))

instance : IsTotal (String × JValue) keyLE :=
  ⟨fun a b => charsLe_total a.1.data b.1.data⟩

instance : IsTrans (String × JValue) keyLE :=
  ⟨fun _ _ _ h h' => charsLe_trans _ _ _ h h'⟩

/-- `QRCodeSigner.canonical_json`: `json.dumps(data, sort_keys=True,
separators=(',', ':'), ensure_ascii=False)` — members sorted by key,
compact separators, one exact output string. -/
def canonical_json (data : List (String × JValue)) : String :=
  "\x7b" ++ String.intercalate "," ((List.insertionSort keyLE data).map encodeMember) ++ "\x7d"

/-- Model of the `cryptography` library's ECDSA-P256/SHA-256 and base64
primitives consumed by `QRCodeSigner` (library code, not repository
code).  `sign`/`verify` act on digests; `pubPem` is PEM serialization of
the public key of a private key; `sha256` digests a UTF-8 string;
`b64encode`/`b64decode` are the signature transport encoding.  The two
proof fields are the library guarantees the repository relies on:
a signature made with `sk` verifies under `pubPem sk`, and base64
decoding undoes encoding. -/
structure EcdsaLib where
  sign : Nat → Nat → Nat
  pubPem : Nat → String
  verify : String → Nat → Nat → Bool
  sha256 : String → Nat
  b64encode : Nat → String
  b64decode : String → Option Nat
  verify_sign : ∀ sk h, verify (pubPem sk) h (sign sk h) = true
  decode_encode : ∀ s, b64decode (b64encode s) = some s

/-- `QRCodeSigner.sign_payload`: canonical JSON, SHA-256, ECDSA sign,
base64-encode. -/
def sign_payload (L : EcdsaLib) (sk : Nat) (payload_data : List (String × JValue)) : String :=
  L.b64encode (L.sign sk (L.sha256 (canonical_json payload_data)))

/-- `QRCodeSigner.verify_signature`: recompute the canonical JSON and
digest, base64-decode the signature, check it against the PEM public
key.  Any decoding failure is caught and reported as `false`. -/
def verify_signature (L : EcdsaLib) (payload_data : List (String × JValue))
    (signature : String) (public_key_pem : String) : Bool :=
  match L.b64decode signature with
  | none => false
  | some sigBytes => L.verify public_key_pem (L.sha256 (canonical_json payload_data)) sigBytes

/-- Standalone `verify_qr_signature` helper (same check through a fresh
signer instance). -/
def verify_qr_signature (L : EcdsaLib) (payload_data : List (String × JValue))
    (signature : String) (public_key_pem : String) : Bool :=
  verify_signature L payload_data signature public_key_pem

/-- Concrete instantiation of the library interface used to evaluate
the pipeline on closed inputs (digest = string length, signature =
key + digest, PEM = `sk` copies of a marker character). -/
def toyLib : EcdsaLib where
  sign sk h := sk + h
  pubPem sk := String.mk (List.replicate sk 'k')
  verify pem h s := s == pem.length + h
  sha256 s := s.length
  b64encode s := String.mk (List.replicate s 'a')
  b64decode s := some s.length
  verify_sign := by
    intro sk h
    show ((sk + h) == (List.replicate sk 'k').length + h) = true
    rw [List.length_replicate]
    simp
  decode_encode := by
    intro s
    show some (List.replicate s 'a').length = some s
    rw [List.length_replicate]

/-- Two key-sorted association lists that are permutations of each other
with duplicate-free keys are equal (the uniqueness half of sortedness). -/
theorem sortedKeyed_eq_of_perm :
    ∀ {l₁ l₂ : List (String × JValue)}, l₁.Perm l₂ →
      l₁.Pairwise keyLE → l₂.Pairwise keyLE → (l₁.map Prod.fst).Nodup → l₁ = l₂ := by
  intro l₁
  induction l₁ with
  | nil =>
    intro l₂ hp _ _ _
    exact hp.nil_eq
  | cons a t ih =>
    intro l₂ hp hs₁ hs₂ hnd
    cases l₂ with
    | nil => exact absurd hp.symm.nil_eq (by simp)
    | cons b t₂ =>
      have ha2 : a ∈ b :: t₂ := hp.subset (List.mem_cons_self a t)
      have hb1 : b ∈ a :: t := hp.symm.subset (List.mem_cons_self b t₂)
      have hnd' : a.1 ∉ t.map Prod.fst ∧ (t.map Prod.fst).Nodup := by
        rw [List.map_cons] at hnd
        exact List.nodup_cons.mp hnd
      have hle₁ : keyLE a b := by
        rcases List.mem_cons.mp hb1 with h | h
        · rw [h]; exact charsLe_refl a.1.data
        · exact (List.pairwise_cons.mp hs₁).1 b h
      have hle₂ : keyLE b a := by
        rcases List.mem_cons.mp ha2 with h | h
        · rw [h]; exact charsLe_refl b.1.data
        · exact (List.pairwise_cons.mp hs₂).1 a h
      have hkey : a.1 = b.1 := strLe_antisymm hle₁ hle₂
      have hab : a = b := by
        rcases List.mem_cons.mp ha2 with h | h
        · exact h
        · rcases List.mem_cons.mp hb1 with h' | h'
          · exact h'.symm
          · exact absurd (hkey ▸ List.mem_map_of_mem Prod.fst h') hnd'.1
      subst hab
      have htp : t.Perm t₂ := hp.cons_inv
      have := ih htp (List.pairwise_cons.mp hs₁).2 (List.pairwise_cons.mp hs₂).2 hnd'.2
      rw [this]

/-- Canonical encoding only depends on the key/value set: permuting a
duplicate-key-free association list leaves `canonical_json` unchanged. -/
theorem canonical_json_perm {l₁ l₂ : List (String × JValue)}
    (h : l₁.Perm l₂) (hnd : (l₁.map Prod.fst).Nodup) :
    canonical_json l₁ = canonical_json l₂ := by
  unfold canonical_json
  have hsorteq : List.insertionSort keyLE l₁ = List.insertionSort keyLE l₂ := by
    apply sortedKeyed_eq_of_perm
    · exact (List.perm_insertionSort keyLE l₁).trans
        (h.trans (List.perm_insertionSort keyLE l₂).symm)
    · exact List.sorted_insertionSort keyLE l₁
    · exact List.sorted_insertionSort keyLE l₂
    · exact ((List.perm_insertionSort keyLE l₁).map Prod.fst).nodup_iff.mpr hnd
  rw [hsorteq]

/-- The signer round-trip: a payload signed with `sk` verifies under the
PEM of `sk`'s public key. -/
theorem verify_sign_payload (L : EcdsaLib) (sk : Nat) (p : List (String × JValue)) :
    verify_signature L p (sign_payload L sk p) (L.pubPem sk) = true := by
  unfold verify_signature sign_payload
  rw [L.decode_encode]
  exact L.verify_sign sk (L.sha256 (canonical_json p))

/-- Seller row (`sellers` table), the fields the embedded routes read:
owning user, display name, KYC lifecycle status string, optional PEM
public key. -/
structure SellerRec where
  user_id : String
  company_name : String
  status : String
  public_key : Option String
deriving DecidableEq

/-- Medicine row (`medicines` table): owning seller, catalog fields,
dates as day ordinals, catalog approval status string. -/
structure MedicineRec where
  seller_id : String
  name : String
  batch_no : String
  mfg_date : Option Int
  expiry_date : Option Int
  dosage : Option String
  strength : Option String
  approval_status : String
deriving DecidableEq

/-- Revocation-registry row (`revoked_keys` table). -/
structure RevEntry where
  seller_id : String
  public_key : String
  reason : String
  revoked_by : String
deriving DecidableEq

/-- Scan-audit row (`scan_logs` table); `raw_payload` keeps the scanned
dict, `result` the outcome string, `details` the signature flag. -/
structure ScanLogEntry where
  user_id : String
  qr_id : Option String
  raw_payload : Option (List (String × JValue))
  result : String
  signature_valid : Bool
deriving DecidableEq

/-- Issued-credential row (`qr_codes` table). -/
structure QRRec where
  medicine_id : String
  payload_json : List (String × JValue)
  signature : String
  issued_by : String
deriving DecidableEq

/-- The shared persistent state the routes read and mutate: each table
as a list, sellers and medicines keyed by their id string. -/
structure DbState where
  sellers : List (String × SellerRec)
  medicines : List (String × MedicineRec)
  revoked_keys : List RevEntry
  scan_logs : List ScanLogEntry
  qr_codes : List QRRec
deriving DecidableEq

/-- Keyed row lookup, the embedding of `SELECT * ... WHERE id = %s`. -/
def lookupId {α : Type} (i : String) : List (String × α) → Option α
  | [] => none
  | (k, v) :: t => if k = i then some v else lookupId i t

/-- `Seller.get_by_id`: `SELECT * FROM sellers WHERE id = %s`. -/
def Seller.get_by_id (db : DbState) (seller_id : String) : Option SellerRec :=
  lookupId seller_id db.sellers

/-- `Seller.get_by_user_id`: `SELECT * FROM sellers WHERE user_id = %s`
(returns the row together with its id, which the route reads). -/
def Seller.get_by_user_id (db : DbState) (user_id : String) : Option (String × SellerRec) :=
  db.sellers.find? (fun kv => kv.2.user_id == user_id)

/-- The routes' single-column `UPDATE sellers SET status = ... WHERE id`
(also the status part of `Seller.update_status`). -/
def Seller.update_status (db : DbState) (seller_id : String) (status : String) : DbState :=
  { db with sellers :=
      db.sellers.map (fun kv =>
        if kv.1 = seller_id then (kv.1, { kv.2 with status := status }) else kv) }

/-- `Medicine.get_by_id`: `SELECT * FROM medicines WHERE id = %s`. -/
def Medicine.get_by_id (db : DbState) (medicine_id : String) : Option MedicineRec :=
  lookupId medicine_id db.medicines

/-- `RevokedKeys.create`: a plain `INSERT INTO revoked_keys` — one new
row, no conflict clause. -/
def RevokedKeys.create (db : DbState) (e : RevEntry) : DbState :=
  { db with revoked_keys := db.revoked_keys ++ [e] }

/-- `RevokedKeys.is_revoked`: `SELECT COUNT(*) ... WHERE public_key = %s`
compared with zero — exact key-string match. -/
def RevokedKeys.is_revoked (db : DbState) (public_key : String) : Bool :=
  0 < db.revoked_keys.countP (fun e => e.public_key == public_key)

/-- `ScanLog.create`: `INSERT INTO scan_logs` — one new audit row. -/
def ScanLog.create (db : DbState) (e : ScanLogEntry) : DbState :=
  { db with scan_logs := db.scan_logs ++ [e] }

/-- `QRCode.create`: `INSERT INTO qr_codes` — one new credential row. -/
def QRCode.create (db : DbState) (r : QRRec) : DbState :=
  { db with qr_codes := db.qr_codes ++ [r] }

/-- Distilled JSON response of the scan endpoint: the error exits, the
early `"result": "unverified"` return for an unapproved medicine, and
the final `"result"/"verified"` body (plus whether a medicine row was
attached). -/
inductive ScanResponse where
  | httpError (status : Nat) (msg : String)
  | unverifiedMedicine (result : String)
  | ok (result : String) (verified : Bool) (medicine_found : Bool)
deriving DecidableEq

/-- The scan request body: `qr_data` absent, a string that fails
`json.loads`, or a parsed JSON object. -/
inductive QrInput where
  | missing
  | badJson
  | payload (qr_data : List (String × JValue))
deriving DecidableEq

/-- Medicine resolution from a payload, shared by `scan_qr` and
`QRCodeService.verify_qr_code`: `if payload.get('medicine_id'):` then
`Medicine.get_by_id` — a falsy or non-string id resolves to nothing. -/
def payload_medicine (db : DbState) (payload_data : List (String × JValue)) :
    Option MedicineRec :=
  match payload_data.lookup "medicine_id" with
  | some (.str m) => if m = "" then none else Medicine.get_by_id db m
  | _ => none

/-- Tail of `scan_qr` once `result_status`/`verified` are fixed:
medicine lookup, the unapproved-medicine early return (which skips the
audit log), and otherwise the single `ScanLog.create` plus final
response.  (The AI-summary and OCR calls are external collaborators
with no effect on the embedded state.) -/
def scan_qr_finish (db : DbState) (user_id : String)
    (qr_data payload_data : List (String × JValue))
    (result_status : String) (verified : Bool) : ScanResponse × DbState :=
  match payload_medicine db payload_data with
  | some med =>
    if med.approval_status ≠ "approved" then
      (.unverifiedMedicine "unverified", db)
    else
      (.ok result_status verified true,
       ScanLog.create db
         { user_id := user_id, qr_id := none, raw_payload := some qr_data,
           result := result_status, signature_valid := verified })
  | none =>
    (.ok result_status verified false,
     ScanLog.create db
       { user_id := user_id, qr_id := none, raw_payload := some qr_data,
         result := result_status, signature_valid := verified })

/-- The `scan_qr` route handler (`POST /scan`): parse guards, seller and
key resolution, revocation check before the signature check, signature
verdict, then `scan_qr_finish`.  A non-string id never matches a row;
a non-string signature makes `b64decode` raise inside `verify_signature`'s
`try`, which returns `False` (counterfeit). -/
def scan_qr (L : EcdsaLib) (db : DbState) (user_id : String) (input : QrInput) :
    ScanResponse × DbState :=
  match input with
  | .badJson => (.httpError 400 "Invalid QR JSON", db)
  | .missing => (.httpError 400 "QR data missing", db)
  | .payload qr_data =>
    if qr_data = [] then (.httpError 400 "QR data missing", db) else
    let payload_data := qr_data.filter (fun kv => kv.1 ≠ "signature")
    match qr_data.lookup "signature" with
    | none => (.httpError 400 "Missing signature", db)
    | some sigVal =>
      if sigVal.truthy = false then (.httpError 400 "Missing signature", db) else
      match payload_data.lookup "seller_id" with
      | none => (.httpError 400 "Missing seller_id", db)
      | some sellerIdVal =>
        if sellerIdVal.truthy = false then (.httpError 400 "Missing seller_id", db) else
        match (match sellerIdVal with
               | .str sid => Seller.get_by_id db sid
               | _ => none) with
        | none => (.httpError 404 "Seller not found", db)
        | some seller =>
          match seller.public_key with
          | none => (.httpError 400 "Seller public key missing", db)
          | some pk =>
            if pk = "" then (.httpError 400 "Seller public key missing", db) else
            if RevokedKeys.is_revoked db pk then
              scan_qr_finish db user_id qr_data payload_data "revoked" false
            else
              match sigVal with
              | .str s =>
                if verify_qr_signature L payload_data s pk then
                  scan_qr_finish db user_id qr_data payload_data "verified" true
                else
                  scan_qr_finish db user_id qr_data payload_data "counterfeit" false
              | _ => scan_qr_finish db user_id qr_data payload_data "counterfeit" false

/-- Result dict of `QRCodeService.verify_qr_code` (`verified`,
`signature_valid`, `in_database`, `expired`, plus the `details` status
and error strings). -/
structure VerifyResult where
  verified : Bool
  signature_valid : Bool
  in_database : Bool
  expired : Bool
  status : Option String
  error : Option String
deriving DecidableEq

/-- `QRCodeService.verify_qr_code`: signature check, medicine lookup,
expiry check against the current date, then the final classification
(`verified` or `not_found_or_invalid`). -/
def QRCodeService.verify_qr_code (L : EcdsaLib) (db : DbState) (now : Int)
    (qr_data : List (String × JValue)) (public_key_pem : String) : VerifyResult :=
  let base : VerifyResult :=
    { verified := false, signature_valid := false, in_database := false,
      expired := false, status := none, error := none }
  let payload := qr_data.filter (fun kv => kv.1 ≠ "signature")
  match qr_data.lookup "signature" with
  | none => { base with error := some "Signature missing" }
  | some sigVal =>
    if sigVal.truthy = false then { base with error := some "Signature missing" } else
    let signature_valid :=
      match sigVal with
      | .str s => verify_qr_signature L payload s public_key_pem
      | _ => false
    if signature_valid = false then
      { base with status := some "counterfeit" }
    else
      match payload_medicine db payload with
      | some med =>
        match med.expiry_date with
        | some e =>
          if e < now then
            { base with signature_valid := true, in_database := true,
                        expired := true, status := some "expired" }
          else
            { base with signature_valid := true, in_database := true,
                        verified := true, status := some "verified" }
        | none =>
          { base with signature_valid := true, in_database := true,
                      verified := true, status := some "verified" }
      | none =>
        { base with signature_valid := true, status := some "not_found_or_invalid" }

/-- Distilled JSON response of the seller `issue-qr` route. -/
inductive IssueResponse where
  | httpError (status : Nat) (msg : String)
  | created (qr_payload : List (String × JValue))
deriving DecidableEq

/-- `str(x) if x else None` on an optional date. -/
def optDateJV : Option Int → JValue
  | some d => .str (toString d)
  | none => .null

/-- `issue_qr` (`POST /seller/issue-qr`): approved-seller gate,
ownership check, payload construction, then `QRCode.create` with the
literal empty signature (`signature=""`, "No signature for simplified
version"). -/
def issue_qr (db : DbState) (user_id : String) (medicine_id : Option String)
    (batch_details : String) (issued_at : String) : IssueResponse × DbState :=
  match Seller.get_by_user_id db user_id with
  | none => (.httpError 403 "Seller not approved", db)
  | some (seller_id, seller) =>
    if seller.status ≠ "approved" then (.httpError 403 "Seller not approved", db) else
    match medicine_id with
    | none => (.httpError 400 "Medicine ID is required", db)
    | some mid =>
      if mid = "" then (.httpError 400 "Medicine ID is required", db) else
      match Medicine.get_by_id db mid with
      | none => (.httpError 404 "Medicine not found or unauthorized", db)
      | some med =>
        if med.seller_id ≠ seller_id then
          (.httpError 404 "Medicine not found or unauthorized", db)
        else
          let payload : List (String × JValue) :=
            [("medicine_id", .str mid),
             ("seller_id", .str seller_id),
             ("medicine_name", .str med.name),
             ("batch_no", .str med.batch_no),
             ("batch_details", .str batch_details),
             ("mfg_date", optDateJV med.mfg_date),
             ("expiry_date", optDateJV med.expiry_date),
             ("issued_at", .str issued_at)]
          (.created payload,
           QRCode.create db
             { medicine_id := mid, payload_json := payload,
               signature := "", issued_by := user_id })

/-- Return dict of `QRCodeService.create_signed_qr` (the fields the
spec's issuance contract talks about). -/
structure SignedQRResult where
  payload : List (String × JValue)
  signature : String
  public_key : Option String
deriving DecidableEq

/-- Python `str(x)`: `"None"` for `None`, the number text otherwise
(`create_signed_qr` applies `str` unconditionally to the dates). -/
def pyStrOfDate : Option Int → String
  | some d => toString d
  | none => "None"

/-- `.get` of an optional string column: the string or JSON null. -/
def optStrJV : Option String → JValue
  | some s => .str s
  | none => .null

/-- `QRCodeService.create_signed_qr`: lookups and approval gate raise
`ValueError` (modelled as `Except.error`); otherwise build the payload,
sign it with the service's signer key when one is configured
(`"UNSIGNED_DEMO_MODE"` otherwise) and persist via `QRCode.create`. -/
def QRCodeService.create_signed_qr (L : EcdsaLib) (signer : Option Nat) (db : DbState)
    (medicine_id seller_id issued_by : String) (timestamp : String) :
    Except String SignedQRResult × DbState :=
  match Medicine.get_by_id db medicine_id with
  | none => (.error ("Medicine not found: " ++ medicine_id), db)
  | some med =>
    match Seller.get_by_id db seller_id with
    | none => (.error ("Seller not found: " ++ seller_id), db)
    | some seller =>
      if seller.status ≠ "approved" then
        (.error ("Seller not approved: " ++ seller_id), db)
      else
        let payload_data : List (String × JValue) :=
          [("medicine_id", .str medicine_id),
           ("batch_no", .str med.batch_no),
           ("mfg_date", .str (pyStrOfDate med.mfg_date)),
           ("expiry_date", .str (pyStrOfDate med.expiry_date)),
           ("seller_id", .str seller_id),
           ("medicine_name", .str med.name),
           ("dosage", optStrJV med.dosage),
           ("strength", optStrJV med.strength),
           ("timestamp", .str timestamp)]
        let signature :=
          match signer with
          | some sk => sign_payload L sk payload_data
          | none => "UNSIGNED_DEMO_MODE"
        (.ok { payload := payload_data, signature := signature,
               public_key := seller.public_key },
         QRCode.create db
           { medicine_id := medicine_id, payload_json := payload_data,
             signature := signature, issued_by := issued_by })

/-- Distilled JSON response of the admin seller routes. -/
inductive AdminResponse where
  | ok (msg : String)
  | err (status : Nat) (msg : String)
deriving DecidableEq

/-- `approve_seller` (`POST /admin/sellers/<id>/approve`): 404 when the
seller is missing, 400 when already approved, otherwise set the status
to `approved`. -/
def approve_seller (db : DbState) (seller_id : String) : AdminResponse × DbState :=
  match Seller.get_by_id db seller_id with
  | none => (.err 404 "Seller not found", db)
  | some seller =>
    if seller.status = "approved" then (.err 400 "Seller already approved", db)
    else (.ok "Seller approved successfully", Seller.update_status db seller_id "approved")

/-- `reject_seller`: 404 when missing, otherwise set `rejected` — there
is no check of the current status. -/
def reject_seller (db : DbState) (seller_id : String) : AdminResponse × DbState :=
  match Seller.get_by_id db seller_id with
  | none => (.err 404 "Seller not found", db)
  | some _ =>
    (.ok "Seller rejected successfully", Seller.update_status db seller_id "rejected")

/-- `mark_seller_viewed`: allowed only from `pending`. -/
def mark_seller_viewed (db : DbState) (seller_id : String) : AdminResponse × DbState :=
  match Seller.get_by_id db seller_id with
  | none => (.err 404 "Seller not found", db)
  | some seller =>
    if seller.status ≠ "pending" then
      (.err 400 "Can only mark pending applications as viewed", db)
    else (.ok "Seller marked as viewed", Seller.update_status db seller_id "viewed")

/-- `set_seller_verifying`: allowed only from `pending` or `viewed`. -/
def set_seller_verifying (db : DbState) (seller_id : String) : AdminResponse × DbState :=
  match Seller.get_by_id db seller_id with
  | none => (.err 404 "Seller not found", db)
  | some seller =>
    if seller.status ≠ "pending" ∧ seller.status ≠ "viewed" then
      (.err 400 "Can only set verifying for pending or viewed applications", db)
    else (.ok "Seller marked as verifying", Seller.update_status db seller_id "verifying")

/-- `request_seller_changes`: empty remarks are rejected first; then
404 when missing; otherwise set `changes_required` from any status. -/
def request_seller_changes (db : DbState) (seller_id : String) (remarks : String) :
    AdminResponse × DbState :=
  if remarks = "" then (.err 400 "Remarks are required", db)
  else
    match Seller.get_by_id db seller_id with
    | none => (.err 404 "Seller not found", db)
    | some _ =>
      (.ok "Changes requested successfully",
       Seller.update_status db seller_id "changes_required")

/-- `revoke_seller` (`POST /admin/sellers/<id>/revoke`): set the status
to `revoked` from any state, and when a (truthy) public key is on
record, append it to the revocation registry. -/
def revoke_seller (db : DbState) (seller_id : String) (reason : String) (admin_id : String) :
    AdminResponse × DbState :=
  match Seller.get_by_id db seller_id with
  | none => (.err 404 "Seller not found", db)
  | some seller =>
    let db1 := Seller.update_status db seller_id "revoked"
    let db2 :=
      match seller.public_key with
      | some pk =>
        if pk = "" then db1
        else RevokedKeys.create db1
          { seller_id := seller_id, public_key := pk,
            reason := reason, revoked_by := admin_id }
      | none => db1
    (.ok "Seller revoked successfully", db2)

/-- Looking up the updated key of a keyed map-update returns the old
row with the update applied. -/
theorem lookupId_map_set {α : Type} (i : String) (f : α → α) :
    ∀ l : List (String × α),
      lookupId i (l.map (fun kv => if kv.1 = i then (kv.1, f kv.2) else kv)) =
        (lookupId i l).map f := by
  intro l
  induction l with
  | nil => rfl
  | cons kv t ih =>
    rcases kv with ⟨k, v⟩
    rw [List.map_cons]
    have hfun : (if (k, v).1 = i then ((k, v).1, f (k, v).2) else (k, v)) =
        if k = i then (k, f v) else (k, v) := rfl
    rw [hfun]
    by_cases h : k = i
    · rw [if_pos h]
      simp only [lookupId]
      rw [if_pos h, if_pos h]
      rfl
    · rw [if_neg h]
      simp only [lookupId]
      rw [if_neg h, if_neg h]
      exact ih

/-- Looking a seller up after its status was updated returns the same
row with only the status replaced. -/
theorem Seller.get_by_id_update_status (db : DbState) (i status : String) :
    Seller.get_by_id (Seller.update_status db i status) i =
      (Seller.get_by_id db i).map (fun s => { s with status := status }) := by
  unfold Seller.get_by_id Seller.update_status
  exact lookupId_map_set i (fun s => { s with status := status }) db.sellers

/-- The tail of the scan route either early-returns `unverified` or
produces the final body with the given result. -/
theorem scan_qr_finish_fst_cases (db : DbState) (uid : String)
    (q p : List (String × JValue)) (r : String) (v : Bool) :
    (scan_qr_finish db uid q p r v).1 = .unverifiedMedicine "unverified" ∨
    ∃ found, (scan_qr_finish db uid q p r v).1 = .ok r v found := by
  unfold scan_qr_finish
  split
  · split
    · left; rfl
    · right; exact ⟨true, rfl⟩
  · right; exact ⟨false, rfl⟩

/-- Number of audit rows a response accounts for: one for the final
classification body, zero for every other exit. -/
def scanLogDelta : ScanResponse → Nat
  | .ok _ _ _ => 1
  | _ => 0

/-- The tail of the scan route appends one audit row exactly when it
returns the final body, none on the `unverified` early return. -/
theorem scan_qr_finish_log_count (db : DbState) (uid : String)
    (q p : List (String × JValue)) (r : String) (v : Bool) :
    ((scan_qr_finish db uid q p r v).2).scan_logs.length =
      db.scan_logs.length + scanLogDelta (scan_qr_finish db uid q p r v).1 := by
  unfold scan_qr_finish
  split
  · split
    · rfl
    · simp [ScanLog.create, scanLogDelta]
  · simp [ScanLog.create, scanLogDelta]

/-- C6.  Sign/verify round-trip: for every JSON-compatible payload and
every keypair of the signature scheme, `verify_signature` accepts the
signature produced by `sign_payload` under the matching public key. -/
theorem c6_sign_verify_roundtrip (L : EcdsaLib) (sk : Nat) (P : List (String × JValue)) :
    verify_signature L P (sign_payload L sk P) (L.pubPem sk) = true :=
  verify_sign_payload L sk P

/-- C7.  Canonical encoding is order-invariant and deterministic: for a
payload with duplicate-free string keys, any permutation of the member
order canonicalizes, hashes and signs to identical results. -/
theorem c7_canonical_json_order_invariant (L : EcdsaLib) (sk : Nat)
    {P P' : List (String × JValue)} (hperm : P.Perm P')
    (hnd : (P.map Prod.fst).Nodup) :
    canonical_json P = canonical_json P' ∧
    L.sha256 (canonical_json P) = L.sha256 (canonical_json P') ∧
    sign_payload L sk P = sign_payload L sk P' := by
  have h := canonical_json_perm hperm hnd
  refine ⟨h, by rw [h], ?_⟩
  unfold sign_payload
  rw [h]

/-- Witness for C7 at a concrete two-member payload and its swap. -/
theorem c7_witness :
    ([(("b" : String), JValue.num 2), ("a", JValue.num 1)].Perm
       [(("a" : String), JValue.num 1), ("b", JValue.num 2)]) ∧
    (([(("b" : String), JValue.num 2), ("a", JValue.num 1)].map Prod.fst).Nodup) ∧
    canonical_json [("b", JValue.num 2), ("a", JValue.num 1)] =
      canonical_json [("a", JValue.num 1), ("b", JValue.num 2)] :=
  ⟨List.Perm.swap _ _ _, by decide,
   (c7_canonical_json_order_invariant toyLib 1 (List.Perm.swap _ _ _) (by decide)).1⟩

/-- C4 (amended).  One audit row is appended exactly on the invocations
that reach the final classification body; every error exit and the
unapproved-medicine early return leave the scan log untouched. -/
theorem c4_scan_log_append (L : EcdsaLib) (db : DbState) (uid : String) (input : QrInput) :
    ((scan_qr L db uid input).2).scan_logs.length =
      db.scan_logs.length + scanLogDelta (scan_qr L db uid input).1 := by
  cases input with
  | badJson => rfl
  | missing => rfl
  | payload qr_data =>
    simp only [scan_qr]
    repeat' split
    all_goals first
      | rfl
      | apply scan_qr_finish_log_count

/-- C1 (amended).  When the issuer's key is revoked, the scan outcome is
`"revoked"` — never `"verified"` or `"counterfeit"` — unless the
referenced medicine resolves and is not catalog-approved, in which case
the route early-returns `"unverified"` instead. -/
theorem c1_revoked_key_outcome (L : EcdsaLib) (db : DbState) (uid : String)
    (qr_data : List (String × JValue)) (sigVal : JValue) (seller : SellerRec)
    (sid pk : String)
    (hsig : qr_data.lookup "signature" = some sigVal)
    (hsigT : sigVal.truthy = true)
    (hsid : (qr_data.filter (fun kv => kv.1 ≠ "signature")).lookup "seller_id" =
              some (.str sid))
    (hsidT : sid ≠ "")
    (hseller : Seller.get_by_id db sid = some seller)
    (hpk : seller.public_key = some pk)
    (hpkT : pk ≠ "")
    (hrev : RevokedKeys.is_revoked db pk = true) :
    (scan_qr L db uid (.payload qr_data)).1 = .unverifiedMedicine "unverified" ∨
    ∃ found, (scan_qr L db uid (.payload qr_data)).1 = .ok "revoked" false found := by
  have hne : qr_data ≠ [] := by
    intro h
    rw [h] at hsig
    simp [List.lookup] at hsig
  have hsidT2 : (JValue.str sid).truthy = true := by
    simp [JValue.truthy, hsidT]
  simp only [scan_qr, hsig, hsid, hseller, hpk, hrev, hsigT, hsidT2, hne, hpkT,
    if_true, if_false, Bool.true_eq_false, ite_false, ite_true, not_false_iff]
  exact scan_qr_finish_fst_cases db uid qr_data _ "revoked" false

/-- C2 (amended).  `QRCodeService.create_signed_qr`, when the service
holds a signer key, returns the payload with a signature that verifies
under that key's public PEM, and persists the pair as a `qr_codes` row
— whereas the `issue_qr` route persists the empty signature. -/
theorem c2_create_signed_qr_roundtrip (L : EcdsaLib) (sk : Nat) (db : DbState)
    (mid sid uid ts : String) (med : MedicineRec) (seller : SellerRec)
    (hmed : Medicine.get_by_id db mid = some med)
    (hsel : Seller.get_by_id db sid = some seller)
    (happ : seller.status = "approved") :
    ∃ res : SignedQRResult,
      (QRCodeService.create_signed_qr L (some sk) db mid sid uid ts).1 = .ok res ∧
      verify_signature L res.payload res.signature (L.pubPem sk) = true ∧
      ((QRCodeService.create_signed_qr L (some sk) db mid sid uid ts).2).qr_codes =
        db.qr_codes ++ [{ medicine_id := mid, payload_json := res.payload,
                          signature := res.signature, issued_by := uid }] := by
  simp only [QRCodeService.create_signed_qr, hmed, hsel, happ, ne_eq,
    not_true_eq_false, ite_false, if_false, QRCode.create]
  refine ⟨_, rfl, ?_, rfl⟩
  exact verify_sign_payload L sk _

/-- C3 (amended).  The expiry classification lives in
`QRCodeService.verify_qr_code`: with a valid signature and a resolvable
medicine whose expiry date is before the current date, the result is
`expired`, not `verified`.  (The `scan_qr` route never performs this
check.) -/
theorem c3_verify_qr_code_expired (L : EcdsaLib) (db : DbState) (now : Int)
    (qr_data : List (String × JValue)) (s pk m : String) (med : MedicineRec) (e : Int)
    (hsig : qr_data.lookup "signature" = some (.str s))
    (hs : s ≠ "")
    (hv : verify_qr_signature L (qr_data.filter (fun kv => kv.1 ≠ "signature")) s pk = true)
    (hmid : (qr_data.filter (fun kv => kv.1 ≠ "signature")).lookup "medicine_id" =
              some (.str m))
    (hm : m ≠ "")
    (hmed : Medicine.get_by_id db m = some med)
    (hexp : med.expiry_date = some e)
    (hlt : e < now) :
    QRCodeService.verify_qr_code L db now qr_data pk =
      { verified := false, signature_valid := true, in_database := true,
        expired := true, status := some "expired", error := none } := by
  have hsT : (JValue.str s).truthy = true := by simp [JValue.truthy, hs]
  simp only [QRCodeService.verify_qr_code, hsig, hsT, hv, payload_medicine, hmid, hm, hmed,
    hexp, if_pos hlt, Bool.true_eq_false, ite_false, ite_true, if_true, if_false,
    not_false_iff]

/-- C5 (amended).  When the signature is valid but the referenced
medicine does not resolve, `QRCodeService.verify_qr_code` reports
`not_found_or_invalid` with `verified = false` — while the `scan_qr`
route still answers `"verified"` with no medicine attached. -/
theorem c5_verify_qr_code_missing_medicine (L : EcdsaLib) (db : DbState) (now : Int)
    (qr_data : List (String × JValue)) (s pk m : String)
    (hsig : qr_data.lookup "signature" = some (.str s))
    (hs : s ≠ "")
    (hv : verify_qr_signature L (qr_data.filter (fun kv => kv.1 ≠ "signature")) s pk = true)
    (hmid : (qr_data.filter (fun kv => kv.1 ≠ "signature")).lookup "medicine_id" =
              some (.str m))
    (hm : m ≠ "")
    (hmed : Medicine.get_by_id db m = none) :
    QRCodeService.verify_qr_code L db now qr_data pk =
      { verified := false, signature_valid := true, in_database := false,
        expired := false, status := some "not_found_or_invalid", error := none } := by
  have hsT : (JValue.str s).truthy = true := by simp [JValue.truthy, hs]
  simp only [QRCodeService.verify_qr_code, hsig, hsT, hv, payload_medicine, hmid, hm, hmed,
    Bool.true_eq_false, ite_false, ite_true, if_true, if_false, not_false_iff]

/-- C8 (amended).  From the terminal statuses `rejected`/`revoked`, only
`mark-viewed` and `set-verifying` fail and leave the state unchanged;
`approve`, `reject`, `request-changes` (with non-empty remarks) and
`revoke` all succeed against a terminal-state seller. -/
theorem c8_terminal_state_transitions (db : DbState) (sid : String) (seller : SellerRec)
    (hsel : Seller.get_by_id db sid = some seller)
    (hterm : seller.status = "rejected" ∨ seller.status = "revoked") :
    mark_seller_viewed db sid =
      (.err 400 "Can only mark pending applications as viewed", db) ∧
    set_seller_verifying db sid =
      (.err 400 "Can only set verifying for pending or viewed applications", db) ∧
    (approve_seller db sid).1 = .ok "Seller approved successfully" ∧
    (reject_seller db sid).1 = .ok "Seller rejected successfully" ∧
    (∀ remarks, remarks ≠ "" →
       (request_seller_changes db sid remarks).1 = .ok "Changes requested successfully") ∧
    (∀ reason aid, (revoke_seller db sid reason aid).1 = .ok "Seller revoked successfully") := by
  rcases hterm with h | h <;>
    refine ⟨?_, ?_, ?_, ?_, ?_, ?_⟩ <;>
    first
      | (intro remarks hr
         simp [request_seller_changes, hsel, h, hr])
      | (intro reason aid
         simp [revoke_seller, hsel, h])
      | simp [mark_seller_viewed, set_seller_verifying, approve_seller, reject_seller,
          hsel, h]

/-- C9 (amended).  `approve` fails only on a missing seller or one that
is already `approved` (`AlreadyApproved`, state unchanged); from every
other status — including `rejected` and `revoked` — it succeeds, and a
second approve then yields `AlreadyApproved`. -/
theorem c9_approve_transitions (db : DbState) (sid : String) (seller : SellerRec)
    (hsel : Seller.get_by_id db sid = some seller) :
    (seller.status = "approved" →
       approve_seller db sid = (.err 400 "Seller already approved", db)) ∧
    (seller.status ≠ "approved" →
       (approve_seller db sid).1 = .ok "Seller approved successfully" ∧
       Seller.get_by_id (approve_seller db sid).2 sid =
         some { seller with status := "approved" } ∧
       (approve_seller (approve_seller db sid).2 sid).1 =
         .err 400 "Seller already approved") := by
  constructor
  · intro h
    simp [approve_seller, hsel, h]
  · intro h
    have h1 : (approve_seller db sid).2 = Seller.update_status db sid "approved" := by
      simp [approve_seller, hsel, h]
    have h2 : (approve_seller db sid).1 = .ok "Seller approved successfully" := by
      simp [approve_seller, hsel, h]
    have h3 : Seller.get_by_id (approve_seller db sid).2 sid =
        some { seller with status := "approved" } := by
      rw [h1, Seller.get_by_id_update_status, hsel]
      rfl
    refine ⟨h2, h3, ?_⟩
    set db2 := (approve_seller db sid).2 with hdb2
    simp [approve_seller, h3]

/-- C10 (amended).  A duplicate registry append never fails and the key
stays revoked before and after, but `RevokedKeys.create` is a plain
insert: it always adds one more row, so the duplicate append is not a
no-op on the registry contents. -/
theorem c10_duplicate_append (db : DbState) (e : RevEntry)
    (h : RevokedKeys.is_revoked db e.public_key = true) :
    RevokedKeys.is_revoked db e.public_key = true ∧
    RevokedKeys.is_revoked (RevokedKeys.create db e) e.public_key = true ∧
    (RevokedKeys.create db e).revoked_keys.length = db.revoked_keys.length + 1 ∧
    (RevokedKeys.create db e).revoked_keys = db.revoked_keys ++ [e] := by
  refine ⟨h, ?_, by simp [RevokedKeys.create], rfl⟩
  simp [RevokedKeys.is_revoked, RevokedKeys.create, List.countP_append,
    List.countP_cons, decide_eq_true_eq]

/-- C1 fixture: a seller whose key is in the revocation registry, and a
referenced medicine that exists but is not catalog-approved. -/
def c1seller : SellerRec :=
  { user_id := "u1", company_name := "Acme", status := "approved",
    public_key := some "kk" }

def c1med : MedicineRec :=
  { seller_id := "s1", name := "Med", batch_no := "B1", mfg_date := some 0,
    expiry_date := some 100, dosage := none, strength := none,
    approval_status := "pending" }

def c1db : DbState :=
  { sellers := [("s1", c1seller)], medicines := [("m1", c1med)],
    revoked_keys := [{ seller_id := "s1", public_key := "kk",
                       reason := "compromised", revoked_by := "a1" }],
    scan_logs := [], qr_codes := [] }

/-- C1 fixture for the amended statement: same revoked key, but the
payload's medicine does not resolve. -/
def c1db2 : DbState :=
  { sellers := [("s1", c1seller)], medicines := [],
    revoked_keys := [{ seller_id := "s1", public_key := "kk",
                       reason := "compromised", revoked_by := "a1" }],
    scan_logs := [], qr_codes := [] }

def c1qr : List (String × JValue) :=
  [("signature", .str "sig"), ("seller_id", .str "s1"), ("medicine_id", .str "m1")]

/-- C1 (counterexample).  The issuer's key is revoked, yet the scan of a
payload referencing an existing unapproved medicine returns the outcome
`"unverified"`, not `"revoked"` — the catalog-approval state does change
the outcome of a revoked-key scan. -/
theorem c1_counterexample :
    RevokedKeys.is_revoked c1db "kk" = true ∧
    (Seller.get_by_id c1db "s1").map SellerRec.public_key = some (some "kk") ∧
    (Medicine.get_by_id c1db "m1").map MedicineRec.approval_status = some "pending" ∧
    (scan_qr toyLib c1db "u0" (.payload c1qr)).1 = .unverifiedMedicine "unverified" ∧
    ∀ found, (scan_qr toyLib c1db "u0" (.payload c1qr)).1 ≠ .ok "revoked" false found := by
  refine ⟨by decide, by decide, by decide, by decide, ?_⟩
  intro found
  cases found <;> decide

/-- Witness for the amended C1 statement: revoked key, payload medicine
unresolvable, outcome `"revoked"`. -/
theorem c1_witness :
    c1qr.lookup "signature" = some (.str "sig") ∧
    RevokedKeys.is_revoked c1db2 "kk" = true ∧
    ((scan_qr toyLib c1db2 "u0" (.payload c1qr)).1 = .unverifiedMedicine "unverified" ∨
     ∃ found, (scan_qr toyLib c1db2 "u0" (.payload c1qr)).1 = .ok "revoked" false found) :=
  ⟨by decide, by decide,
   c1_revoked_key_outcome toyLib c1db2 "u0" c1qr (.str "sig") c1seller "s1" "kk"
     (by decide) (by decide) (by decide) (by decide) (by decide) (by decide)
     (by decide) (by decide)⟩

/-- C2 fixture: an approved seller owning an existing medicine; the
seller's stored PEM is the public key of the toy signer key `2`. -/
def c2seller : SellerRec :=
  { user_id := "u1", company_name := "Acme", status := "approved",
    public_key := some "kk" }

def c2med : MedicineRec :=
  { seller_id := "s1", name := "Med", batch_no := "B1", mfg_date := some 0,
    expiry_date := some 100, dosage := none, strength := none,
    approval_status := "approved" }

def c2db : DbState :=
  { sellers := [("s1", c2seller)], medicines := [("m1", c2med)],
    revoked_keys := [], scan_logs := [], qr_codes := [] }

set_option maxRecDepth 4000 in
/-- C2 (counterexample).  The `issue-qr` route persists the credential
with the literal empty signature, and that stored signature does not
verify against the issuing seller's public key. -/
theorem c2_counterexample :
    c2seller.status = "approved" ∧
    ((issue_qr c2db "u1" (some "m1") "BD" "T0").2).qr_codes.map QRRec.signature = [""] ∧
    (∀ r ∈ ((issue_qr c2db "u1" (some "m1") "BD" "T0").2).qr_codes,
       verify_signature toyLib r.payload_json r.signature "kk" = false) := by
  refine ⟨by decide, by decide, ?_⟩
  decide

/-- Witness for the amended C2 statement at the toy fixtures. -/
theorem c2_witness :
    Medicine.get_by_id c2db "m1" = some c2med ∧
    Seller.get_by_id c2db "s1" = some c2seller ∧
    c2seller.status = "approved" ∧
    (∃ res : SignedQRResult,
      (QRCodeService.create_signed_qr toyLib (some 2) c2db "m1" "s1" "u1" "T0").1 =
        .ok res ∧
      verify_signature toyLib res.payload res.signature (toyLib.pubPem 2) = true ∧
      ((QRCodeService.create_signed_qr toyLib (some 2) c2db "m1" "s1" "u1" "T0").2).qr_codes =
        c2db.qr_codes ++ [{ medicine_id := "m1", payload_json := res.payload,
                            signature := res.signature, issued_by := "u1" }]) :=
  ⟨by decide, by decide, by decide,
   c2_create_signed_qr_roundtrip toyLib 2 c2db "m1" "s1" "u1" "T0" c2med c2seller
     (by decide) (by decide) (by decide)⟩

/-- C3 fixture: non-revoked approved seller, catalog-approved medicine
whose expiry date (day `-5`) is already in the past, and a payload
signed with the toy signer key `2` matching the seller's stored PEM. -/
def c3seller : SellerRec :=
  { user_id := "u1", company_name := "Acme", status := "approved",
    public_key := some "kk" }

def c3med : MedicineRec :=
  { seller_id := "s1", name := "Med", batch_no := "B1", mfg_date := some (-40),
    expiry_date := some (-5), dosage := none, strength := none,
    approval_status := "approved" }

def c3db : DbState :=
  { sellers := [("s1", c3seller)], medicines := [("m1", c3med)],
    revoked_keys := [], scan_logs := [], qr_codes := [] }

def c3p : List (String × JValue) :=
  [("medicine_id", .str "m1"), ("seller_id", .str "s1")]

def c3sig : String := sign_payload toyLib 2 c3p

def c3qr : List (String × JValue) := ("signature", .str c3sig) :: c3p

set_option maxRecDepth 8000 in
/-- C3 (counterexample).  A scanned credential with a valid signature
referencing an approved medicine whose expiry date is before the
current time is still classified `"verified"` by the scan route: the
route has no expiry check at all (it does not even read a clock). -/
theorem c3_counterexample :
    (Medicine.get_by_id c3db "m1").map MedicineRec.expiry_date = some (some (-5)) ∧
    ((-5 : Int) < 0) ∧
    (scan_qr toyLib c3db "u0" (.payload c3qr)).1 = .ok "verified" true true := by
  refine ⟨by decide, by decide, ?_⟩
  decide

set_option maxRecDepth 8000 in
/-- Witness for the amended C3 statement: the same expired credential
fed to `QRCodeService.verify_qr_code` at current date `0`. -/
theorem c3_witness :
    Medicine.get_by_id c3db "m1" = some c3med ∧
    c3med.expiry_date = some (-5) ∧
    ((-5 : Int) < 0) ∧
    QRCodeService.verify_qr_code toyLib c3db 0 c3qr "kk" =
      { verified := false, signature_valid := true, in_database := true,
        expired := true, status := some "expired", error := none } :=
  ⟨by decide, by decide, by decide,
   c3_verify_qr_code_expired toyLib c3db 0 c3qr c3sig "kk" "m1" c3med (-5)
     (by decide) (by decide) (by decide) (by decide) (by decide) (by decide)
     (by decide) (by decide)⟩

/-- C4 fixture: an empty database. -/
def c4db : DbState :=
  { sellers := [], medicines := [], revoked_keys := [], scan_logs := [], qr_codes := [] }

/-- C4 (counterexample).  An invocation that ends in the malformed-input
exit appends no Scan Audit Entry at all — not exactly one. -/
theorem c4_counterexample :
    (scan_qr toyLib c4db "u0" QrInput.badJson).1 = .httpError 400 "Invalid QR JSON" ∧
    ((scan_qr toyLib c4db "u0" QrInput.badJson).2).scan_logs.length =
      c4db.scan_logs.length := by
  exact ⟨rfl, rfl⟩

/-- C5 fixture: non-revoked approved seller and a validly signed payload
whose medicine id resolves to no catalog row. -/
def c5seller : SellerRec :=
  { user_id := "u1", company_name := "Acme", status := "approved",
    public_key := some "kk" }

def c5db : DbState :=
  { sellers := [("s1", c5seller)], medicines := [],
    revoked_keys := [], scan_logs := [], qr_codes := [] }

def c5p : List (String × JValue) :=
  [("medicine_id", .str "m9"), ("seller_id", .str "s1")]

def c5sig : String := sign_payload toyLib 2 c5p

def c5qr : List (String × JValue) := ("signature", .str c5sig) :: c5p

set_option maxRecDepth 8000 in
/-- C5 (counterexample).  With a valid signature and an unresolvable
medicine reference, the scan route answers `"verified"` (with no
medicine attached) instead of an `UnknownSubject`-style outcome. -/
theorem c5_counterexample :
    Medicine.get_by_id c5db "m9" = none ∧
    (scan_qr toyLib c5db "u0" (.payload c5qr)).1 = .ok "verified" true false := by
  refine ⟨by decide, ?_⟩
  decide

set_option maxRecDepth 8000 in
/-- Witness for the amended C5 statement: the same credential fed to
`QRCodeService.verify_qr_code`. -/
theorem c5_witness :
    Medicine.get_by_id c5db "m9" = none ∧
    QRCodeService.verify_qr_code toyLib c5db 0 c5qr "kk" =
      { verified := false, signature_valid := true, in_database := false,
        expired := false, status := some "not_found_or_invalid", error := none } :=
  ⟨by decide,
   c5_verify_qr_code_missing_medicine toyLib c5db 0 c5qr c5sig "kk" "m9"
     (by decide) (by decide) (by decide) (by decide) (by decide) (by decide)⟩

/-- C8 fixture: a seller already in the terminal `rejected` status. -/
def c8seller : SellerRec :=
  { user_id := "u1", company_name := "Acme", status := "rejected",
    public_key := some "kk" }

def c8db : DbState :=
  { sellers := [("s1", c8seller)], medicines := [], revoked_keys := [],
    scan_logs := [], qr_codes := [] }

/-- C8 (counterexample).  The approve operation succeeds against a
seller whose lifecycle status is the terminal `rejected`, moving it to
`approved` — the terminal state has outgoing transitions. -/
theorem c8_counterexample :
    (Seller.get_by_id c8db "s1").map SellerRec.status = some "rejected" ∧
    (approve_seller c8db "s1").1 = .ok "Seller approved successfully" ∧
    (Seller.get_by_id (approve_seller c8db "s1").2 "s1").map SellerRec.status =
      some "approved" := by
  decide

/-- Witness for the amended C8 statement at the rejected fixture. -/
theorem c8_witness :
    Seller.get_by_id c8db "s1" = some c8seller ∧
    (c8seller.status = "rejected" ∨ c8seller.status = "revoked") ∧
    mark_seller_viewed c8db "s1" =
      (.err 400 "Can only mark pending applications as viewed", c8db) ∧
    (approve_seller c8db "s1").1 = .ok "Seller approved successfully" ∧
    (request_seller_changes c8db "s1" "fix docs").1 = .ok "Changes requested successfully" ∧
    (revoke_seller c8db "s1" "fraud" "a1").1 = .ok "Seller revoked successfully" := by
  have H := c8_terminal_state_transitions c8db "s1" c8seller (by decide)
    (Or.inl (by decide))
  exact ⟨by decide, Or.inl (by decide), H.1, H.2.2.1,
    H.2.2.2.2.1 "fix docs" (by decide), H.2.2.2.2.2 "fraud" "a1"⟩

/-- C9 fixture: a seller in the terminal `revoked` status, and one still
`pending` for the success/double-approve path. -/
def c9seller : SellerRec :=
  { user_id := "u1", company_name := "Acme", status := "revoked",
    public_key := some "kk" }

def c9db : DbState :=
  { sellers := [("s1", c9seller)], medicines := [], revoked_keys := [],
    scan_logs := [], qr_codes := [] }

def c9seller2 : SellerRec :=
  { user_id := "u2", company_name := "Bmed", status := "pending",
    public_key := none }

def c9db2 : DbState :=
  { sellers := [("s2", c9seller2)], medicines := [], revoked_keys := [],
    scan_logs := [], qr_codes := [] }

/-- C9 (counterexample).  The approve transition also succeeds from the
`revoked` status, which is outside the claimed `pending`/`viewed`/
`verifying` precondition. -/
theorem c9_counterexample :
    (Seller.get_by_id c9db "s1").map SellerRec.status = some "revoked" ∧
    (approve_seller c9db "s1").1 = .ok "Seller approved successfully" ∧
    (Seller.get_by_id (approve_seller c9db "s1").2 "s1").map SellerRec.status =
      some "approved" := by
  decide

/-- Witness for the amended C9 statement: a pending seller is approved
once, and the second approve yields `AlreadyApproved`. -/
theorem c9_witness :
    Seller.get_by_id c9db2 "s2" = some c9seller2 ∧
    c9seller2.status ≠ "approved" ∧
    (approve_seller c9db2 "s2").1 = .ok "Seller approved successfully" ∧
    (approve_seller (approve_seller c9db2 "s2").2 "s2").1 =
      .err 400 "Seller already approved" := by
  have H := (c9_approve_transitions c9db2 "s2" c9seller2 (by decide)).2 (by decide)
  exact ⟨by decide, by decide, H.1, H.2.2⟩

/-- C10 fixture: a registry already holding key `kk`, and a second
append of the same key by another administrator. -/
def c10e0 : RevEntry :=
  { seller_id := "s1", public_key := "kk", reason := "compromised", revoked_by := "a1" }

def c10e : RevEntry :=
  { seller_id := "s1", public_key := "kk", reason := "again", revoked_by := "a2" }

def c10db : DbState :=
  { sellers := [], medicines := [], revoked_keys := [c10e0],
    scan_logs := [], qr_codes := [] }

/-- C10 (counterexample).  Appending an already-revoked key does not
leave the registry unchanged: a second row for the same key is
inserted, so the duplicate append is not a no-op. -/
theorem c10_counterexample :
    RevokedKeys.is_revoked c10db "kk" = true ∧
    (RevokedKeys.create c10db c10e).revoked_keys ≠ c10db.revoked_keys ∧
    (RevokedKeys.create c10db c10e).revoked_keys.length = 2 := by
  decide

/-- Witness for the amended C10 statement at the duplicate-append
fixture. -/
theorem c10_witness :
    RevokedKeys.is_revoked c10db c10e.public_key = true ∧
    RevokedKeys.is_revoked (RevokedKeys.create c10db c10e) c10e.public_key = true ∧
    (RevokedKeys.create c10db c10e).revoked_keys.length =
      c10db.revoked_keys.length + 1 := by
  have H := c10_duplicate_append c10db c10e (by decide)
  exact ⟨H.1, H.2.1, H.2.2.1⟩
